import Mathlib

/-!
Shallow embedding of the core of `hea-prop-predict`: the composition parser
(`src/hea_predictor/data_loader.py`, `parse_composition`) and the three
property estimators (`src/hea_predictor/calculator.py`,
`calculate_density_rom`, `calculate_lattice_parameter_vegard`,
`calculate_thermal_conductivity_rom`).

Modelling choices:
* Real numbers are modelled by `ℚ`.  Every numeric literal of the source
  (`0.999`, `1.001`, property values) is exact in `ℚ`.
* A pandas row with possibly-NaN cells is modelled by a record of `Option`
  fields; `pd.isna x` becomes `x = none`.
* The dataframe indexed by symbol is an association list
  `List (String × ElementProperties)`; `element in element_data.index`
  becomes `List.lookup`.
* A Python dict `{element: fraction}` iterated in insertion order is a
  `List (String × ℚ)`.
* Messages printed to stderr are modelled by an inductive `Warning`
  carrying the data that appears in the message (the surrounding prose of
  each f-string is abstracted away); `Error:` prints that accompany a
  `return None` are represented by the `none` result itself.
* String lexing of the composition expression (splitting on `,` and `:`,
  `float(...)`) is external plumbing; `parse_composition` is modelled from
  the token stream onward, one `(symbol, fraction)` pair per token, with
  all the per-token validation of the source loop.
* Python raises `ZeroDivisionError` on `x / 0.0` for floats; in
  `parse_composition` that exception is caught by the generic handler and
  turned into `None`, so the embedding returns `none` when the
  normalisation divisor is zero.
-/

namespace HEA

/-- One constructor per distinct diagnostic print site of the source. -/
inductive Warning where
  /-- From `parse_composition`: "Input fractions sum to {total}. They will be normalized." -/
  | sumNormalized (total : ℚ)
  /-- From `calculate_density_rom`: "Missing atomic mass or density data for: ..." -/
  | missingMassOrDensity (elems : List String)
  /-- From `calculate_density_rom`: "Density for element {el} is non-positive ({d})." -/
  | nonPositiveDensity (el : String) (d : ℚ)
  /-- From `calculate_lattice_parameter_vegard`: "Missing or invalid lattice parameter/structure data for: ..." -/
  | missingLatticeData (elems : List String)
  /-- From `calculate_lattice_parameter_vegard`: "Constituent elements have different crystal structures (...)." -/
  | differentStructures (structs : List String)
  /-- From `calculate_lattice_parameter_vegard`: "Crystal structures for contributing elements are undefined." -/
  | undefinedStructures
  /-- From `calculate_thermal_conductivity_rom`: "Missing thermal conductivity data for: ..." -/
  | missingConductivity (elems : List String)
  /-- From `calculate_thermal_conductivity_rom`: the fixed "simple linear average ... VERY rough estimate" note. -/
  | linearAverageCaution
  deriving DecidableEq, Repr

/-- One row of the element table: the five property columns, each
possibly NaN after `pd.to_numeric(..., errors='coerce')`. -/
structure ElementProperties where
  atomicMass : Option ℚ
  density : Option ℚ
  crystalStructure : Option String
  latticeParameter : Option ℚ
  thermalConductivity : Option ℚ
  deriving DecidableEq, Repr

/-- The dataframe indexed by trimmed symbol. -/
abbrev ElementTable := List (String × ElementProperties)

/-- A parsed composition: symbols with atomic fractions, in insertion order. -/
abbrev Composition := List (String × ℚ)

/-! ### CompositionParser (`parse_composition`) -/

/-- The per-token validation loop of `parse_composition`: empty-symbol
check, `[0,1]` bounds check, duplicate check, then accumulate the entry
and the running total.  Any `ValueError` of the source is `none`. -/
def parsePartsAux : List (String × ℚ) → Composition → ℚ → Option (Composition × ℚ)
  | [], acc, total => some (acc, total)
  | (el, f) :: rest, acc, total =>
    if el = "" then none
    else if f < 0 ∨ f > 1 then none
    else if (acc.lookup el).isSome then none
    else parsePartsAux rest (acc ++ [(el, f)]) (total + f)

/-- Function `parse_composition` from the token stream onward: validate every
token, then either return the fractions unchanged (sum inside
`(0.999, 1.001)`), or normalise by the sum with one warning.  A zero sum
makes the normalising division raise `ZeroDivisionError`, which the
source catches and turns into `None`. -/
def parse_composition (parts : List (String × ℚ)) : Option (Composition × List Warning) :=
  if parts = [] then none
  else
    match parsePartsAux parts [] 0 with
    | none => none
    | some (comp, total) =>
      if 0.999 < total ∧ total < 1.001 then some (comp, [])
      else if total = 0 then none
      else some (comp.map (fun p => (p.1, p.2 / total)), [Warning.sumNormalized total])

/-! ### PropertyEstimator: density (`calculate_density_rom`) -/

/-- Loop state of `calculate_density_rom`: the two accumulated sums, the
missing-data element list, and the warnings printed inside the loop. -/
structure DenAcc where
  vol : ℚ
  mass : ℚ
  missing : List String
  warnings : List Warning
  deriving DecidableEq, Repr

/-- The element loop of `calculate_density_rom`: hard failure on a
symbol absent from the table; skip (recording the element) when mass or
density is NaN; skip with an immediate warning when density ≤ 0;
otherwise accumulate `fraction * (mass / density)` and
`fraction * mass`. -/
def densityLoop (table : ElementTable) : Composition → DenAcc → Option DenAcc
  | [], s => some s
  | (el, f) :: rest, s =>
    match table.lookup el with
    | none => none
    | some props =>
      match props.atomicMass, props.density with
      | some m, some d =>
        if d ≤ 0 then
          densityLoop table rest ⟨s.vol, s.mass, s.missing, s.warnings ++ [Warning.nonPositiveDensity el d]⟩
        else
          densityLoop table rest ⟨s.vol + f * (m / d), s.mass + f * m, s.missing, s.warnings⟩
      | _, _ => densityLoop table rest ⟨s.vol, s.mass, s.missing ++ [el], s.warnings⟩

/-- Result of one density estimation: the optional value and the
diagnostics printed on the way. -/
structure DensityResult where
  value : Option ℚ
  warnings : List Warning
  deriving DecidableEq, Repr

/-- Wrapper `calculate_density_rom`: run the loop, print the missing-data
warning if any element was skipped for NaN data, then fail on a
non-positive total molar volume or total molar mass, else return the
ratio. -/
def calculate_density_rom (composition : Composition) (table : ElementTable) : DensityResult :=
  match densityLoop table composition ⟨0, 0, [], []⟩ with
  | none => ⟨none, []⟩
  | some s =>
    let ws := s.warnings ++ (if s.missing = [] then [] else [Warning.missingMassOrDensity s.missing])
    if s.vol ≤ 0 then ⟨none, ws⟩
    else if s.mass ≤ 0 then ⟨none, ws⟩
    else ⟨some (s.mass / s.vol), ws⟩

/-! ### PropertyEstimator: lattice parameter (`calculate_lattice_parameter_vegard`) -/

/-- Python `set.add`: append the label only when it is new (a Python set of the
labels seen so far, in first-seen order). -/
def insertStr (l : List String) (x : String) : List String :=
  if x ∈ l then l else l ++ [x]

/-- Insertion step for `sorted(list(structures))`. -/
def insertSorted (x : String) : List String → List String
  | [] => [x]
  | y :: ys => if x ≤ y then x :: y :: ys else y :: insertSorted x ys

/-- Model of `sorted(list(structures))` on the distinct labels. -/
def sortStrings (l : List String) : List String := l.foldr insertSorted []

/-- Loop state of `calculate_lattice_parameter_vegard`. -/
structure LatAcc where
  acc : ℚ
  structures : List String
  contributing : Nat
  missing : List String
  deriving DecidableEq, Repr

/-- The element loop of `calculate_lattice_parameter_vegard`: hard
failure on a symbol absent from the table; skip (recording the element)
when the lattice parameter is NaN or ≤ 0; otherwise accumulate
`fraction * latticeParameter`, collect the upper-cased structure label
(a missing label is recorded but the element still contributes), and
count the contribution. -/
def latticeLoop (table : ElementTable) : Composition → LatAcc → Option LatAcc
  | [], s => some s
  | (el, f) :: rest, s =>
    match table.lookup el with
    | none => none
    | some props =>
      match props.latticeParameter with
      | none => latticeLoop table rest ⟨s.acc, s.structures, s.contributing, s.missing ++ [el]⟩
      | some a =>
        if a ≤ 0 then
          latticeLoop table rest ⟨s.acc, s.structures, s.contributing, s.missing ++ [el]⟩
        else
          match props.crystalStructure with
          | some st =>
            latticeLoop table rest
              ⟨s.acc + f * a, insertStr s.structures st.toUpper, s.contributing + 1, s.missing⟩
          | none =>
            latticeLoop table rest
              ⟨s.acc + f * a, s.structures, s.contributing + 1, s.missing ++ [el]⟩

/-- Result of one lattice-parameter estimation: `(value, structures,
warning_issued)` of the source, plus the diagnostics printed. -/
structure LatticeResult where
  value : Option ℚ
  structures : List String
  warningIssued : Bool
  warnings : List Warning
  deriving DecidableEq, Repr

/-- Wrapper `calculate_lattice_parameter_vegard`: run the loop, print the
missing-data warning if any skip happened, fail when no element
contributed, warn on more than one distinct structure label or on none
at all, and return the accumulated value with the sorted label list. -/
def calculate_lattice_parameter_vegard (composition : Composition) (table : ElementTable) :
    LatticeResult :=
  match latticeLoop table composition ⟨0, [], 0, []⟩ with
  | none => ⟨none, [], true, []⟩
  | some s =>
    let ws0 : List Warning :=
      if s.missing = [] then [] else [Warning.missingLatticeData s.missing]
    if s.contributing = 0 then ⟨none, [], true, ws0⟩
    else if 1 < s.structures.length then
      ⟨some s.acc, sortStrings s.structures, true,
        ws0 ++ [Warning.differentStructures (sortStrings s.structures)]⟩
    else if s.structures.length = 0 then
      ⟨some s.acc, sortStrings s.structures, true, ws0 ++ [Warning.undefinedStructures]⟩
    else ⟨some s.acc, sortStrings s.structures, decide (s.missing ≠ []), ws0⟩

/-! ### PropertyEstimator: thermal conductivity (`calculate_thermal_conductivity_rom`) -/

/-- Loop state of `calculate_thermal_conductivity_rom`. -/
structure CondAcc where
  acc : ℚ
  contributing : Nat
  missing : List String
  deriving DecidableEq, Repr

/-- The element loop of `calculate_thermal_conductivity_rom`: hard
failure on a symbol absent from the table; skip (recording the element)
when the conductivity is NaN; otherwise accumulate
`fraction * conductivity` and count the contribution.  Note the source
has no sign check here: a present non-positive conductivity
contributes. -/
def conductivityLoop (table : ElementTable) : Composition → CondAcc → Option CondAcc
  | [], s => some s
  | (el, f) :: rest, s =>
    match table.lookup el with
    | none => none
    | some props =>
      match props.thermalConductivity with
      | none => conductivityLoop table rest ⟨s.acc, s.contributing, s.missing ++ [el]⟩
      | some k => conductivityLoop table rest ⟨s.acc + f * k, s.contributing + 1, s.missing⟩

/-- Result of one conductivity estimation. -/
structure CondResult where
  value : Option ℚ
  warnings : List Warning
  deriving DecidableEq, Repr

/-- Wrapper `calculate_thermal_conductivity_rom`: run the loop, print the
missing-data warning if any skip happened, fail when no element
contributed, else return the sum together with the unconditional
linear-average caution. -/
def calculate_thermal_conductivity_rom (composition : Composition) (table : ElementTable) :
    CondResult :=
  match conductivityLoop table composition ⟨0, 0, []⟩ with
  | none => ⟨none, []⟩
  | some s =>
    let ws : List Warning :=
      if s.missing = [] then [] else [Warning.missingConductivity s.missing]
    if s.contributing = 0 then ⟨none, ws⟩
    else ⟨some s.acc, ws ++ [Warning.linearAverageCaution]⟩


/-! ### Spec-side formulas for the density claim -/

/-- The atomic mass the table records for `e` (`0` when absent; only
used under hypotheses that make it present). -/
def tableMass (table : ElementTable) (e : String) : ℚ :=
  ((table.lookup e).bind fun p => p.atomicMass).getD 0

/-- The density the table records for `e` (`0` when absent). -/
def tableDensity (table : ElementTable) (e : String) : ℚ :=
  ((table.lookup e).bind fun p => p.density).getD 0

/-- The spec's total molar mass, `Σ (fraction × mass)`. -/
def specMolarMassSum (comp : Composition) (table : ElementTable) : ℚ :=
  (comp.map fun p => p.2 * tableMass table p.1).sum

/-- The spec's total molar volume, `Σ (fraction × mass/density)`. -/
def specMolarVolumeSum (comp : Composition) (table : ElementTable) : ℚ :=
  (comp.map fun p => p.2 * (tableMass table p.1 / tableDensity table p.1)).sum

/-! ### Lemmas about the parser loop -/

/-- On success the validation loop returns the accumulator followed by
all remaining tokens unchanged, and the total grows by exactly the sum
of the remaining fractions. -/
theorem parsePartsAux_eq (parts : List (String × ℚ)) :
    ∀ (acc : Composition) (t : ℚ) (comp : Composition) (S : ℚ),
      parsePartsAux parts acc t = some (comp, S) →
      comp = acc ++ parts ∧ S = t + (parts.map Prod.snd).sum := by
  induction parts with
  | nil =>
    intro acc t comp S h
    simp only [parsePartsAux, Option.some.injEq, Prod.mk.injEq] at h
    obtain ⟨rfl, rfl⟩ := h
    simp
  | cons hd tl ih =>
    intro acc t comp S h
    obtain ⟨el, f⟩ := hd
    simp only [parsePartsAux] at h
    split_ifs at h
    all_goals
      first
      | exact Option.noConfusion h
      | (obtain ⟨hc, hS⟩ := ih _ _ _ _ h
         subst hc
         subst hS
         refine ⟨by simp, ?_⟩
         simp only [List.map_cons, List.sum_cons]
         ring)

/-- Dividing every fraction divides the fraction sum. -/
theorem sum_map_div (l : List (String × ℚ)) (S : ℚ) :
    ((l.map fun p => (p.1, p.2 / S)).map Prod.snd).sum = (l.map Prod.snd).sum / S := by
  induction l with
  | nil => simp
  | cons hd tl ih => simp only [List.map_cons, List.sum_cons, ih, add_div]

/-- C1, amended: for every valid token list whose fractions sum to `S`
with `S > 0` and `S` outside `(0.999, 1.001)`, `parse_composition`
returns every fraction divided by `S` with exactly one normalization
warning, and the returned fractions sum to `1` exactly.  (The source
returns fractions unchanged with no warning when `S` lies inside
`(0.999, 1.001)`, so the claim's extension to that interval fails.) -/
theorem C1_normalization (parts comp : List (String × ℚ)) (S : ℚ)
    (hparse : parsePartsAux parts [] 0 = some (comp, S))
    (hpos : 0 < S)
    (hout : ¬ (0.999 < S ∧ S < 1.001)) :
    parse_composition parts =
      some (comp.map (fun p => (p.1, p.2 / S)), [Warning.sumNormalized S]) ∧
    ((comp.map (fun p => (p.1, p.2 / S))).map Prod.snd).sum = 1 := by
  obtain ⟨hcomp, hS⟩ := parsePartsAux_eq parts [] 0 comp S hparse
  have hSne : S ≠ 0 := ne_of_gt hpos
  have hne : parts ≠ [] := by
    rintro rfl
    simp only [parsePartsAux, Option.some.injEq, Prod.mk.injEq] at hparse
    rw [← hparse.2] at hpos
    exact lt_irrefl 0 hpos
  constructor
  · simp only [parse_composition, if_neg hne, hparse]
    rw [if_neg hout, if_neg hSne]
  · rw [sum_map_div, hcomp]
    simp only [List.nil_append]
    have hsum : (parts.map Prod.snd).sum = S := by rw [hS, zero_add]
    rw [hsum, div_self hSne]

/-- Witness for the amended C1 at `[("Fe", 0.5)]`. -/
theorem C1_normalization_witness :
    parse_composition [("Fe", 0.5)] =
      some ([("Fe", 1)], [Warning.sumNormalized 0.5]) := by
  have h := C1_normalization [("Fe", 0.5)] [("Fe", 0.5)] 0.5
    (by simp +decide [parsePartsAux]; norm_num) (by norm_num) (by norm_num)
  rw [h.1]
  norm_num

/-- C1, counterexample: for the valid composition `Fe:0.9995` the sum is
`0.9995`, positive and different from `1`, yet the source returns the
fraction unchanged with no warning (the sum lies inside
`(0.999, 1.001)`), and `0.9995 / 0.9995 ≠ 0.9995`. -/
theorem C1_counterexample :
    parse_composition [("Fe", 0.9995)] = some ([("Fe", 0.9995)], []) ∧
    (0 : ℚ) < 0.9995 ∧ (0.9995 : ℚ) ≠ 1 ∧
    (0.9995 : ℚ) / 0.9995 ≠ 0.9995 := by
  refine ⟨?_, by norm_num, by norm_num, by norm_num⟩
  simp +decide only [parse_composition, parsePartsAux, List.lookup]
  norm_num

/-- C8: every well-formed token list whose fractions are all zero makes
`parse_composition` fail: the sum is `0`, outside `(0.999, 1.001)`, and
the normalising division by zero is the guarded failure path. -/
theorem C8_zero_fractions (parts comp : List (String × ℚ)) (S : ℚ)
    (hparse : parsePartsAux parts [] 0 = some (comp, S))
    (hzero : ∀ p ∈ parts, p.2 = 0) :
    parse_composition parts = none := by
  obtain ⟨hcomp, hS⟩ := parsePartsAux_eq parts [] 0 comp S hparse
  have hSz : S = 0 := by
    rw [hS, List.sum_eq_zero, zero_add]
    intro x hx
    obtain ⟨p, hp, rfl⟩ := List.mem_map.mp hx
    exact hzero p hp
  subst hSz
  by_cases hne : parts = []
  · unfold parse_composition
    rw [if_pos hne]
  · simp only [parse_composition, if_neg hne, hparse]
    norm_num

/-- Witness for C8 at the all-zero composition `[("Fe", 0), ("Ni", 0)]`. -/
theorem C8_zero_fractions_witness :
    parse_composition [("Fe", 0), ("Ni", 0)] = none := by
  exact C8_zero_fractions [("Fe", 0), ("Ni", 0)] [("Fe", 0), ("Ni", 0)] 0
    (by simp +decide [parsePartsAux, List.lookup]) (by decide)

/-! ### Lemmas about the conductivity loop -/

/-- The conductivity loop processes an appended list in two stages. -/
theorem conductivityLoop_append (table : ElementTable) (l1 l2 : Composition) :
    ∀ s : CondAcc, conductivityLoop table (l1 ++ l2) s =
      (conductivityLoop table l1 s).bind (conductivityLoop table l2) := by
  induction l1 with
  | nil => intro s; simp [conductivityLoop]
  | cons hd tl ih =>
    intro s
    obtain ⟨el, f⟩ := hd
    simp only [List.cons_append, conductivityLoop]
    cases table.lookup el with
    | none => rfl
    | some props =>
      dsimp only
      cases props.thermalConductivity with
      | none => exact ih _
      | some k => exact ih _

/-- The initial missing-element list only gets extended: running the
conductivity loop from missing list `m` is running it from `[]` and
putting `m` in front, with the same sum and contribution count. -/
theorem conductivityLoop_missing_init (table : ElementTable) (parts : Composition) :
    ∀ (a : ℚ) (c : Nat) (m : List String),
      conductivityLoop table parts ⟨a, c, m⟩ =
        (conductivityLoop table parts ⟨a, c, []⟩).map
          (fun t => ⟨t.acc, t.contributing, m ++ t.missing⟩) := by
  induction parts with
  | nil => intro a c m; simp [conductivityLoop]
  | cons hd tl ih =>
    intro a c m
    obtain ⟨el, f⟩ := hd
    simp only [conductivityLoop]
    cases table.lookup el with
    | none => rfl
    | some props =>
      dsimp only
      cases props.thermalConductivity with
      | none =>
        dsimp only
        simp only [List.nil_append]
        rw [ih a c (m ++ [el]), ih a c [el]]
        cases conductivityLoop table tl ⟨a, c, []⟩ <;> simp
      | some k =>
        dsimp only
        exact ih (a + f * k) (c + 1) m

/-- C3, amended: an element whose conductivity is missing from the
table row is skipped with a warning and contributes nothing: the value
is the one computed on the composition without it (in particular the
remaining fractions are used as-is, not renormalized), and on success
the element is named in the missing-conductivity warning.  (The
amendment drops "or non-positive": the source only tests `pd.isna`, so
a present non-positive conductivity contributes to the sum.) -/
theorem C3_missing_skip (table : ElementTable) (pre post : Composition) (e : String) (f : ℚ)
    (p : ElementProperties) (hl : table.lookup e = some p)
    (hm : p.thermalConductivity = none) :
    (calculate_thermal_conductivity_rom (pre ++ (e, f) :: post) table).value =
      (calculate_thermal_conductivity_rom (pre ++ post) table).value ∧
    ∀ v, (calculate_thermal_conductivity_rom (pre ++ (e, f) :: post) table).value = some v →
      ∃ ms, e ∈ ms ∧
        Warning.missingConductivity ms ∈
          (calculate_thermal_conductivity_rom (pre ++ (e, f) :: post) table).warnings := by
  unfold calculate_thermal_conductivity_rom
  rw [conductivityLoop_append, conductivityLoop_append]
  cases hpre : conductivityLoop table pre ⟨0, 0, []⟩ with
  | none => simp
  | some s =>
    obtain ⟨a, c, m⟩ := s
    simp only [Option.some_bind]
    simp only [conductivityLoop, hl, hm]
    rw [conductivityLoop_missing_init table post a c (m ++ [e]),
        conductivityLoop_missing_init table post a c m]
    cases hbase : conductivityLoop table post ⟨a, c, []⟩ with
    | none => simp
    | some t =>
      obtain ⟨b, c2, m2⟩ := t
      simp only [Option.map_some']
      by_cases hc : c2 = 0
      · simp [hc]
      · refine ⟨by simp [hc], ?_⟩
        intro v hv
        refine ⟨m ++ [e] ++ m2, by simp, ?_⟩
        have hnonempty : ¬ (m ++ [e] ++ m2 = ([] : List String)) := by simp
        simp only [hc, hnonempty, List.append_assoc, List.cons_append,
          if_neg, if_false, ite_false]
        simp [hc, hnonempty]

/-- Witness for the amended C3: in `[("A", 0.5), ("B", 0.5)]` element B
has no conductivity entry; the value equals the one for `[("A", 0.5)]`
alone and B is named in the missing-conductivity warning. -/
theorem C3_missing_skip_witness :
    (calculate_thermal_conductivity_rom [("A", 0.5), ("B", 0.5)]
        [("A", ⟨some 1, some 1, some ("FCC"), some 4, some 100⟩),
         ("B", ⟨some 1, some 1, none, none, none⟩)]).value =
      (calculate_thermal_conductivity_rom [("A", 0.5)]
        [("A", ⟨some 1, some 1, some ("FCC"), some 4, some 100⟩),
         ("B", ⟨some 1, some 1, none, none, none⟩)]).value ∧
    ∃ ms, ("B" : String) ∈ ms ∧
      Warning.missingConductivity ms ∈
        (calculate_thermal_conductivity_rom [("A", 0.5), ("B", 0.5)]
          [("A", ⟨some 1, some 1, some ("FCC"), some 4, some 100⟩),
           ("B", ⟨some 1, some 1, none, none, none⟩)]).warnings := by
  have h := C3_missing_skip
    [("A", ⟨some 1, some 1, some ("FCC"), some 4, some 100⟩),
     ("B", ⟨some 1, some 1, none, none, none⟩)]
    [("A", 0.5)] [] "B" 0.5 ⟨some 1, some 1, none, none, none⟩
    (by simp +decide [List.lookup]) rfl
  refine ⟨h.1, h.2 50 ?_⟩
  simp +decide [calculate_thermal_conductivity_rom, conductivityLoop, List.lookup]
  norm_num

/-- C3, counterexample: a present but negative conductivity is not
skipped: for the single element `Q` with conductivity `-5` the source
returns the value `-5` with no missing-data warning, while the claim
says `Q` is skipped (which would leave no contributing element and a
failure). -/
theorem C3_counterexample :
    (calculate_thermal_conductivity_rom [("Q", 1)]
        [("Q", ⟨none, none, none, none, some (-5)⟩)]) =
      ⟨some (-5), [Warning.linearAverageCaution]⟩ := by
  simp +decide [calculate_thermal_conductivity_rom, conductivityLoop, List.lookup]

/-- C7: every successful conductivity computation carries the fixed
linear-average caution among its warnings. -/
theorem C7_caution (comp : Composition) (table : ElementTable) (v : ℚ)
    (h : (calculate_thermal_conductivity_rom comp table).value = some v) :
    Warning.linearAverageCaution ∈
      (calculate_thermal_conductivity_rom comp table).warnings := by
  unfold calculate_thermal_conductivity_rom at h ⊢
  cases hloop : conductivityLoop table comp ⟨0, 0, []⟩ with
  | none =>
    rw [hloop] at h
    simp at h
  | some s =>
    rw [hloop] at h
    dsimp only at h ⊢
    by_cases hc : s.contributing = 0
    · simp [hc] at h
    · simp [hc]

/-- Witness for C7 at a successful one-element computation. -/
theorem C7_caution_witness :
    Warning.linearAverageCaution ∈
      (calculate_thermal_conductivity_rom [("A", 1)]
        [("A", ⟨some 1, some 1, some ("FCC"), some 4, some 100⟩)]).warnings := by
  exact C7_caution [("A", 1)] [("A", ⟨some 1, some 1, some ("FCC"), some 4, some 100⟩)] 100
    (by simp +decide [calculate_thermal_conductivity_rom, conductivityLoop, List.lookup])

/-- C10: an element with fraction `0` and valid data still counts for
the no-valid-data check: with `A` valid at fraction `0` and `B` (no
lattice, no conductivity data) at fraction `1`, both estimators succeed
and return `0`, rather than failing. -/
theorem C10_zero_fraction_contributes :
    (calculate_lattice_parameter_vegard [("A", 0), ("B", 1)]
        [("A", ⟨some 1, some 1, some ("FCC"), some 4, some 100⟩),
         ("B", ⟨some 1, some 1, none, none, none⟩)]).value = some 0 ∧
    (calculate_thermal_conductivity_rom [("A", 0), ("B", 1)]
        [("A", ⟨some 1, some 1, some ("FCC"), some 4, some 100⟩),
         ("B", ⟨some 1, some 1, none, none, none⟩)]).value = some 0 := by
  constructor
  · simp +decide [calculate_lattice_parameter_vegard, latticeLoop, List.lookup,
      insertStr, sortStrings, insertSorted]
  · simp +decide [calculate_thermal_conductivity_rom, conductivityLoop, List.lookup]


/-! ### Absent table rows abort every loop -/

/-- A composition symbol with no table row makes the density loop fail
from any state. -/
theorem densityLoop_absent (table : ElementTable) (el : String) (parts : Composition)
    (hmem : el ∈ parts.map Prod.fst) (habs : table.lookup el = none) :
    ∀ s, densityLoop table parts s = none := by
  induction parts with
  | nil => cases hmem
  | cons hd tl ih =>
    intro s
    obtain ⟨e2, f2⟩ := hd
    simp only [List.map_cons, List.mem_cons] at hmem
    simp only [densityLoop]
    rcases hmem with rfl | hmem2
    · rw [habs]
    · cases table.lookup e2 with
      | none => rfl
      | some props =>
        dsimp only
        cases props.atomicMass with
        | none => exact ih hmem2 _
        | some m =>
          cases props.density with
          | none => exact ih hmem2 _
          | some d =>
            dsimp only
            split_ifs <;> exact ih hmem2 _

/-- A composition symbol with no table row makes the lattice loop fail
from any state. -/
theorem latticeLoop_absent (table : ElementTable) (el : String) (parts : Composition)
    (hmem : el ∈ parts.map Prod.fst) (habs : table.lookup el = none) :
    ∀ s, latticeLoop table parts s = none := by
  induction parts with
  | nil => cases hmem
  | cons hd tl ih =>
    intro s
    obtain ⟨e2, f2⟩ := hd
    simp only [List.map_cons, List.mem_cons] at hmem
    simp only [latticeLoop]
    rcases hmem with rfl | hmem2
    · rw [habs]
    · cases table.lookup e2 with
      | none => rfl
      | some props =>
        dsimp only
        cases props.latticeParameter with
        | none => exact ih hmem2 _
        | some a =>
          dsimp only
          split_ifs
          · exact ih hmem2 _
          · cases props.crystalStructure with
            | none => exact ih hmem2 _
            | some st => exact ih hmem2 _

/-- A composition symbol with no table row makes the conductivity loop
fail from any state. -/
theorem conductivityLoop_absent (table : ElementTable) (el : String) (parts : Composition)
    (hmem : el ∈ parts.map Prod.fst) (habs : table.lookup el = none) :
    ∀ s, conductivityLoop table parts s = none := by
  induction parts with
  | nil => cases hmem
  | cons hd tl ih =>
    intro s
    obtain ⟨e2, f2⟩ := hd
    simp only [List.map_cons, List.mem_cons] at hmem
    simp only [conductivityLoop]
    rcases hmem with rfl | hmem2
    · rw [habs]
    · cases table.lookup e2 with
      | none => rfl
      | some props =>
        dsimp only
        cases props.thermalConductivity with
        | none => exact ih hmem2 _
        | some k => exact ih hmem2 _

/-- C6: a composition containing an element absent from the table makes
all three property computations fail, whatever data the other elements
have. -/
theorem C6_absent_fails (comp : Composition) (table : ElementTable) (el : String)
    (hmem : el ∈ comp.map Prod.fst) (habs : table.lookup el = none) :
    (calculate_density_rom comp table).value = none ∧
    (calculate_lattice_parameter_vegard comp table).value = none ∧
    (calculate_thermal_conductivity_rom comp table).value = none := by
  refine ⟨?_, ?_, ?_⟩
  · unfold calculate_density_rom
    rw [densityLoop_absent table el comp hmem habs]
  · unfold calculate_lattice_parameter_vegard
    rw [latticeLoop_absent table el comp hmem habs]
  · unfold calculate_thermal_conductivity_rom
    rw [conductivityLoop_absent table el comp hmem habs]

/-- Witness for C6: `Zz` is absent from a table that has complete data
for `A`. -/
theorem C6_absent_fails_witness :
    (calculate_density_rom [("A", 0.5), ("Zz", 0.5)]
        [("A", ⟨some 1, some 1, some ("FCC"), some 4, some 100⟩)]).value = none ∧
    (calculate_lattice_parameter_vegard [("A", 0.5), ("Zz", 0.5)]
        [("A", ⟨some 1, some 1, some ("FCC"), some 4, some 100⟩)]).value = none ∧
    (calculate_thermal_conductivity_rom [("A", 0.5), ("Zz", 0.5)]
        [("A", ⟨some 1, some 1, some ("FCC"), some 4, some 100⟩)]).value = none := by
  exact C6_absent_fails [("A", 0.5), ("Zz", 0.5)]
    [("A", ⟨some 1, some 1, some ("FCC"), some 4, some 100⟩)] "Zz"
    (by simp) (by simp +decide [List.lookup])

/-- C9: whenever the density computation succeeds the returned value is
strictly positive, because both accumulated sums are checked to be
strictly positive before the division. -/
theorem C9_density_positive (comp : Composition) (table : ElementTable) (v : ℚ)
    (h : (calculate_density_rom comp table).value = some v) : 0 < v := by
  unfold calculate_density_rom at h
  cases hloop : densityLoop table comp ⟨0, 0, [], []⟩ with
  | none =>
    rw [hloop] at h
    simp at h
  | some s =>
    rw [hloop] at h
    dsimp only at h
    split_ifs at h
    all_goals simp at h
    all_goals
      subst h
      exact div_pos (by linarith) (by linarith)

/-- Witness for C9 at a one-element composition with density `7.87`. -/
theorem C9_density_positive_witness :
    (0 : ℚ) < 7.87 := by
  refine C9_density_positive [("Fe", 1)]
    [("Fe", ⟨some 55.8, some 7.87, some ("BCC"), some 2.87, some 80.4⟩)] 7.87 ?_
  simp +decide [calculate_density_rom, densityLoop, List.lookup]
  norm_num


/-! ### C2: lattice parameter with one element lacking data -/

/-- C2, counterexample: in `Al:0.5, Xx:0.5` with `Xx` lacking lattice
data, the returned value is `0.5 × 4.05 = 2.025`, the weighted partial
sum — not the other element's lattice parameter value `4.05` as the
claim states. -/
theorem C2_counterexample :
    (calculate_lattice_parameter_vegard [("Al", 0.5), ("Xx", 0.5)]
        [("Al", ⟨some 26.98, some 2.70, some ("FCC"), some 4.05, some 237⟩),
         ("Xx", ⟨some 10, some 1, some ("FCC"), none, some 5⟩)]).value = some 2.025 ∧
    (2.025 : ℚ) ≠ 4.05 := by
  constructor
  · simp +decide [calculate_lattice_parameter_vegard, latticeLoop, List.lookup,
      insertStr, sortStrings, insertSorted]
    norm_num
  · norm_num

/-- C2, amended: for a two-element composition in which exactly one
element has a present, positive lattice parameter (both elements in
the table), the computation succeeds with a warning and the returned
value is the contributing element's fraction times its lattice
parameter — the weighted partial sum with the fraction used as-is, not
renormalized. -/
theorem C2_partial_sum (a b : String) (fa fb la : ℚ) (pa pb : ElementProperties)
    (table : ElementTable) (comp : Composition)
    (horder : comp = [(a, fa), (b, fb)] ∨ comp = [(b, fb), (a, fa)])
    (hla : table.lookup a = some pa) (hpa : pa.latticeParameter = some la) (hpos : 0 < la)
    (hlb : table.lookup b = some pb)
    (hmiss : pb.latticeParameter = none ∨ ∃ lb, pb.latticeParameter = some lb ∧ lb ≤ 0) :
    (calculate_lattice_parameter_vegard comp table).value = some (fa * la) ∧
    (calculate_lattice_parameter_vegard comp table).warningIssued = true := by
  have hnla : ¬ la ≤ 0 := not_le.mpr hpos
  rcases horder with rfl | rfl
  · rcases hmiss with hmb | ⟨lb, hmb, hlble⟩
    · cases hcs : pa.crystalStructure <;>
        simp [calculate_lattice_parameter_vegard, latticeLoop, hla, hlb, hpa, hmb, hnla,
          hcs, insertStr, sortStrings, insertSorted]
    · cases hcs : pa.crystalStructure <;>
        simp [calculate_lattice_parameter_vegard, latticeLoop, hla, hlb, hpa, hmb, hnla,
          hlble, hcs, insertStr, sortStrings, insertSorted]
  · rcases hmiss with hmb | ⟨lb, hmb, hlble⟩
    · cases hcs : pa.crystalStructure <;>
        simp [calculate_lattice_parameter_vegard, latticeLoop, hla, hlb, hpa, hmb, hnla,
          hcs, insertStr, sortStrings, insertSorted]
    · cases hcs : pa.crystalStructure <;>
        simp [calculate_lattice_parameter_vegard, latticeLoop, hla, hlb, hpa, hmb, hnla,
          hlble, hcs, insertStr, sortStrings, insertSorted]

/-- Witness for the amended C2 at `Al:0.5, Xx:0.5`. -/
theorem C2_partial_sum_witness :
    (calculate_lattice_parameter_vegard [("Al", 0.5), ("Xx", 0.5)]
        [("Al", ⟨some 26.98, some 2.70, some ("FCC"), some 4.05, some 237⟩),
         ("Xx", ⟨some 10, some 1, some ("FCC"), none, some 5⟩)]).value =
      some (0.5 * 4.05) ∧
    (calculate_lattice_parameter_vegard [("Al", 0.5), ("Xx", 0.5)]
        [("Al", ⟨some 26.98, some 2.70, some ("FCC"), some 4.05, some 237⟩),
         ("Xx", ⟨some 10, some 1, some ("FCC"), none, some 5⟩)]).warningIssued = true := by
  exact C2_partial_sum "Al" "Xx" 0.5 0.5 4.05
    ⟨some 26.98, some 2.70, some ("FCC"), some 4.05, some 237⟩
    ⟨some 10, some 1, some ("FCC"), none, some 5⟩
    [("Al", ⟨some 26.98, some 2.70, some ("FCC"), some 4.05, some 237⟩),
     ("Xx", ⟨some 10, some 1, some ("FCC"), none, some 5⟩)]
    [("Al", 0.5), ("Xx", 0.5)]
    (Or.inl rfl)
    (by simp +decide [List.lookup]) rfl (by norm_num)
    (by simp +decide [List.lookup]) (Or.inl rfl)


/-! ### C4 and C5: density results -/

/-- C4, counterexample: for the single-element composition with mass
`55.8` and density `7.87` the source returns `some 7.87` (the ratio
`mass / (mass/density)` collapses to the density), which is not
approximately `7.09`: the gap is `0.78`. -/
theorem C4_counterexample :
    (calculate_density_rom [("Fe", 1)]
        [("Fe", ⟨some 55.8, some 7.87, some ("BCC"), some 2.87, some 80.4⟩)]).value
      = some 7.87 ∧
    (7.87 : ℚ) ≠ 7.09 ∧ (0.1 : ℚ) < 7.87 - 7.09 := by
  refine ⟨?_, by norm_num, by norm_num⟩
  simp +decide [calculate_density_rom, densityLoop, List.lookup]
  norm_num

/-- C4, amended: for a single-element composition with fraction `1`,
present mass `m > 0` and present density `d > 0`, the density
computation succeeds and returns exactly the element's density `d`
(`m / (m/d) = d`); at mass `55.8`, density `7.87` the result is
`7.87`, not `7.09`. -/
theorem C4_single_element (e : String) (p : ElementProperties) (m d : ℚ)
    (table : ElementTable) (hl : table.lookup e = some p)
    (hm : p.atomicMass = some m) (hd : p.density = some d)
    (hmp : 0 < m) (hdp : 0 < d) :
    (calculate_density_rom [(e, 1)] table).value = some d := by
  have hdn : ¬ d ≤ 0 := not_le.mpr hdp
  have hvn : ¬ m / d ≤ 0 := not_le.mpr (div_pos hmp hdp)
  have hmn : ¬ m ≤ 0 := not_le.mpr hmp
  simp only [calculate_density_rom, densityLoop, hl, hm, hd, if_neg hdn]
  simp only [zero_add, one_mul]
  rw [if_neg hvn, if_neg hmn]
  simp only [Option.some.injEq]
  rw [div_div_eq_mul_div, mul_comm, mul_div_assoc, div_self (ne_of_gt hmp), mul_one]

/-- Witness for the amended C4 at mass `55.8`, density `7.87`. -/
theorem C4_single_element_witness :
    (calculate_density_rom [("Fe", 1)]
        [("Fe", ⟨some 55.8, some 7.87, some ("BCC"), some 2.87, some 80.4⟩)]).value
      = some 7.87 := by
  exact C4_single_element "Fe" ⟨some 55.8, some 7.87, some ("BCC"), some 2.87, some 80.4⟩
    55.8 7.87 [("Fe", ⟨some 55.8, some 7.87, some ("BCC"), some 2.87, some 80.4⟩)]
    (by simp +decide [List.lookup]) rfl rfl (by norm_num) (by norm_num)

/-- When every composition element has a table row with present mass and
present positive density, the density loop never skips and accumulates
exactly the two spec sums. -/
theorem densityLoop_complete (table : ElementTable) (comp : Composition)
    (hdata : ∀ q ∈ comp, ∃ pr m d, table.lookup q.1 = some pr ∧
      pr.atomicMass = some m ∧ pr.density = some d ∧ 0 < d) :
    ∀ s : DenAcc, densityLoop table comp s =
      some ⟨s.vol + specMolarVolumeSum comp table, s.mass + specMolarMassSum comp table,
            s.missing, s.warnings⟩ := by
  induction comp with
  | nil =>
    intro s
    simp [densityLoop, specMolarVolumeSum, specMolarMassSum]
  | cons hd tl ih =>
    intro s
    obtain ⟨el, f⟩ := hd
    obtain ⟨pr, m, d, hlk, hm, hd2, hdpos⟩ := hdata (el, f) (by simp)
    have hdn : ¬ d ≤ 0 := not_le.mpr hdpos
    have htm : tableMass table el = m := by simp [tableMass, hlk, hm]
    have htd : tableDensity table el = d := by simp [tableDensity, hlk, hd2]
    simp only [densityLoop, hlk, hm, hd2, if_neg hdn]
    rw [ih (fun q hq => hdata q (by simp [hq]))]
    simp only [specMolarVolumeSum, specMolarMassSum, List.map_cons, List.sum_cons] at *
    rw [htm, htd]
    simp only [Option.some.injEq, DenAcc.mk.injEq, and_true]
    refine ⟨by ring, by ring⟩

/-- C5: over a composition whose elements all have complete positive
data, the density result is `Σ(fraction × mass) / Σ(fraction ×
mass/density)` when both sums are positive, and a failure otherwise. -/
theorem C5_density_formula (comp : Composition) (table : ElementTable)
    (hdata : ∀ q ∈ comp, ∃ pr m d, table.lookup q.1 = some pr ∧
      pr.atomicMass = some m ∧ pr.density = some d ∧ 0 < d) :
    (calculate_density_rom comp table).value =
      if 0 < specMolarVolumeSum comp table ∧ 0 < specMolarMassSum comp table
      then some (specMolarMassSum comp table / specMolarVolumeSum comp table)
      else none := by
  unfold calculate_density_rom
  rw [densityLoop_complete table comp hdata ⟨0, 0, [], []⟩]
  dsimp only
  simp only [zero_add]
  by_cases hV : 0 < specMolarVolumeSum comp table
  · by_cases hM : 0 < specMolarMassSum comp table
    · rw [if_neg (not_le.mpr hV), if_neg (not_le.mpr hM)]
      simp [hV, hM]
    · rw [if_neg (not_le.mpr hV), if_pos (not_lt.mp hM)]
      simp [hM]
  · rw [if_pos (not_lt.mp hV)]
    simp [hV]

/-- Witness for C5 at a one-element composition: both sums are positive
and the ratio evaluates to `7.87`. -/
theorem C5_density_formula_witness :
    (calculate_density_rom [("Fe", 1)]
        [("Fe", ⟨some 55.8, some 7.87, some ("BCC"), some 2.87, some 80.4⟩)]).value =
      if 0 < specMolarVolumeSum [("Fe", 1)]
            [("Fe", ⟨some 55.8, some 7.87, some ("BCC"), some 2.87, some 80.4⟩)] ∧
         0 < specMolarMassSum [("Fe", 1)]
            [("Fe", ⟨some 55.8, some 7.87, some ("BCC"), some 2.87, some 80.4⟩)]
      then some (specMolarMassSum [("Fe", 1)]
            [("Fe", ⟨some 55.8, some 7.87, some ("BCC"), some 2.87, some 80.4⟩)] /
          specMolarVolumeSum [("Fe", 1)]
            [("Fe", ⟨some 55.8, some 7.87, some ("BCC"), some 2.87, some 80.4⟩)])
      else none := by
  refine C5_density_formula [("Fe", 1)]
    [("Fe", ⟨some 55.8, some 7.87, some ("BCC"), some 2.87, some 80.4⟩)] ?_
  intro q hq
  simp only [List.mem_singleton] at hq
  subst hq
  exact ⟨⟨some 55.8, some 7.87, some ("BCC"), some 2.87, some 80.4⟩, 55.8, 7.87,
    by simp +decide [List.lookup], rfl, rfl, by norm_num⟩

end HEA
